import Mathlib

/-!
# Verification of the pixoo-manager device core

A shallow embedding, in Lean 4, of the parts of the `pixoo-manager`
repository that its specification makes claims about:

* `app/services/file_utils.py` — `FileTracker` (reference counting of
  temporary files) and `cleanup_files`;
* `app/services/pixoo_connection.py` — `PixooConnection.send_command`
  (retry loop, state transitions);
* `app/services/pixoo_upload.py` — `frame_to_base64` and `upload_gif`;
* `app/services/rotation_manager.py` — `RotationManager.start`,
  `add_item`, `remove_item`, `get_status`.

Python dictionaries are modelled as lookup functions plus, where the
code iterates over entries, association lists; wall-clock times are
integers; the HTTP transport is an explicit schedule of per-attempt
outcomes.  Every definition is executable.
-/

set_option autoImplicit false

namespace PixooManager

/-! ## FileTracker (`app/services/file_utils.py`)

`FileTracker` keeps two dicts guarded by a lock: `_refs : Dict[Path, int]`
(modelled as `FPath → Option Int`, since the code only ever looks it up
pointwise) and `_timestamps : Dict[Path, float]` (modelled as an
association list with unique keys, since `get_stale_files` iterates over
its items).  The lock is not modelled: every claim is about sequential
behaviour.
-/

/-- Paths are modelled as strings. -/
abbrev FPath := String

/-- `del m[k]` on the `_timestamps` dict (no-op when the key is absent). -/
def eraseTs (m : List (FPath × Int)) (k : FPath) : List (FPath × Int) :=
  m.filter (fun kv => kv.1 ≠ k)

/-- `m[k] = v` on the `_timestamps` dict: replaces any previous binding. -/
def setTs (m : List (FPath × Int)) (k : FPath) (v : Int) : List (FPath × Int) :=
  (k, v) :: eraseTs m k

/-- The state of `FileTracker`: `_refs` and `_timestamps`. -/
structure FileTracker where
  refs : FPath → Option Int
  timestamps : List (FPath × Int)

/-- A freshly constructed `FileTracker()` (both dicts empty). -/
def FileTracker.empty : FileTracker := ⟨fun _ => none, []⟩

/-- `_refs.get(path, d)`. -/
def FileTracker.refGet (t : FileTracker) (p : FPath) (d : Int) : Int :=
  (t.refs p).getD d

/-- `FileTracker.acquire(path)`: `_refs[path] = _refs.get(path, 0) + 1`;
`_timestamps[path] = time()`.  The wall clock is passed explicitly. -/
def FileTracker.acquire (t : FileTracker) (p : FPath) (now : Int) : FileTracker :=
  { refs := fun q => if q = p then some (t.refGet p 0 + 1) else t.refs q,
    timestamps := setTs t.timestamps p now }

/-- `FileTracker.release(path)`: returns the new tracker and the Python
return value (`True` when the file may be deleted).  When the count
drops to (or below) zero the code deletes the path from **both**
`_refs` and `_timestamps`. -/
def FileTracker.release (t : FileTracker) (p : FPath) : FileTracker × Bool :=
  match t.refs p with
  | none => (t, true)
  | some v =>
    let n := v - 1
    if n ≤ 0 then
      ({ refs := fun q => if q = p then none else t.refs q,
         timestamps := eraseTs t.timestamps p }, true)
    else
      ({ t with refs := fun q => if q = p then some n else t.refs q }, false)

/-- `FileTracker.is_in_use(path)`: `_refs.get(path, 0) > 0`. -/
def FileTracker.is_in_use (t : FileTracker) (p : FPath) : Bool :=
  t.refGet p 0 > 0

/-- `FileTracker.get_stale_files(ttl)`: paths whose timestamp is older
than `ttl` and whose recorded refcount is zero. -/
def FileTracker.get_stale_files (t : FileTracker) (ttl now : Int) : List FPath :=
  (t.timestamps.filter
    (fun kv => now - kv.2 > ttl ∧ t.refGet kv.1 0 = 0)).map (fun kv => kv.1)

/-- `cleanup_files(paths)` from `file_utils.py`.  The filesystem is a
finite list of existing paths; `unlink` removes the first matching
entry.  `None` entries in the input list are skipped (`if not path`),
and a path is skipped whenever `file_tracker.is_in_use(path)` holds.
OS-level errors (permission, already-gone) are caught and logged by the
code; the embedding models the error-free filesystem. -/
def cleanup_files (t : FileTracker) (paths : List (Option FPath))
    (fsys : List FPath) : List FPath :=
  match paths with
  | [] => fsys
  | none :: rest => cleanup_files t rest fsys
  | some p :: rest =>
    if t.is_in_use p then cleanup_files t rest fsys
    else cleanup_files t rest (fsys.erase p)

/-- Acquire/release calls, for describing trackers reachable through the
public `FileTracker` interface. -/
inductive TrackOp where
  | acq (p : FPath) (now : Int)
  | rel (p : FPath)

/-- Replay a sequence of acquire/release calls from a given tracker. -/
def applyOps (t : FileTracker) : List TrackOp → FileTracker
  | [] => t
  | .acq p now :: rest => applyOps (t.acquire p now) rest
  | .rel p :: rest => applyOps (t.release p).1 rest

/-- Invariant of every tracker reachable through acquire/release: each
recorded refcount is at least 1, and every timestamped path still has a
recorded refcount.  (`release` deletes both entries together as soon as
the count reaches zero.) -/
def TrackerInv (t : FileTracker) : Prop :=
  (∀ q v, t.refs q = some v → 1 ≤ v) ∧
  (∀ kv ∈ t.timestamps, (t.refs kv.1).isSome)

/-! ## DeviceConnection (`app/services/pixoo_connection.py`)

`PixooConnection` holds `_ip`, `_connected` and `_session` behind a
lock; `send_command` copies `ip`/`session` under the lock, then runs up
to `max_retries` transport attempts with exponential backoff (the
sleeps are not modelled — no claim mentions them).  The transport is
modelled as an explicit schedule: one `Attempt` outcome per try, the
schedule's length playing the role of `max_retries`.
-/

/-- The outcome the transport would produce for one attempt:
a completed round-trip (HTTP status plus the parsed body's
`error_code`), `requests.exceptions.Timeout`,
`requests.exceptions.ConnectionError`, or any other exception. -/
inductive Attempt where
  | ok (status : Nat) (errorCode : Int)
  | timeout
  | connRefused
  | otherErr
  deriving Repr, DecidableEq

/-- `True` for the attempt outcomes that land in an `except` arm of the
retry loop (and therefore allow the loop to continue). -/
def Attempt.isFail : Attempt → Bool
  | .ok _ _ => false
  | _ => true

/-- How `send_command`'s `for attempt in range(max_retries)` loop ends:
`returned` (HTTP 200, body returned), `protoRaise`
(`PixooConnectionError` on a non-200 status, re-raised immediately by
the `except PixooConnectionError: raise` arm), or `exhausted` (every
attempt failed; `isConn` is the final value of the
`is_connection_error` flag, set by the class of the *last* failure).
`used` counts the attempts actually made. -/
inductive LoopResult where
  | returned (errorCode : Int) (used : Nat)
  | protoRaise (status : Nat) (used : Nat)
  | exhausted (isConn : Bool) (used : Nat)
  deriving Repr, DecidableEq

/-- Count one more attempt. -/
def LoopResult.bump : LoopResult → LoopResult
  | .returned c u => .returned c (u + 1)
  | .protoRaise s u => .protoRaise s (u + 1)
  | .exhausted b u => .exhausted b (u + 1)

/-- The body of `send_command`'s retry loop, run against a schedule of
attempt outcomes.  The boolean argument is the running
`is_connection_error` flag (initially `False`). -/
def loopRun : List Attempt → Bool → LoopResult
  | [], flag => .exhausted flag 0
  | .ok s code :: _, _ =>
    if s = 200 then .returned code 1 else .protoRaise s 1
  | .timeout :: rest, _ => (loopRun rest false).bump
  | .connRefused :: rest, _ => (loopRun rest true).bump
  | .otherErr :: rest, _ => (loopRun rest false).bump

/-- The attempt count carried by a `LoopResult`. -/
def LoopResult.used : LoopResult → Nat
  | .returned _ u => u
  | .protoRaise _ u => u
  | .exhausted _ u => u

/-- The guarded connection state: `_connected`, `_ip`, `_session`
(the session is an opaque handle). -/
structure ConnState where
  connected : Bool
  ip : Option String
  session : Option Nat
  deriving Repr, DecidableEq

/-- Python truthiness of `self._ip` (`None` and `""` are falsy). -/
def truthyIp : Option String → Bool
  | none => false
  | some s => !(s == "")

/-- `PixooConnection.is_connected`. -/
def ConnState.is_connected (st : ConnState) : Bool :=
  st.connected

/-- How a `send_command` call ends: the parsed body returned on
HTTP 200; `PixooConnectionError` when not connected; the same
exception raised mid-loop on a non-200 status; or the same exception
raised after the loop (`isConn` records whether the final failure was
connection-refused-class, i.e. whether teardown happened). -/
inductive SendOutcome where
  | ok (errorCode : Int)
  | errNotConnected
  | errProtocol (status : Nat)
  | errExhausted (isConn : Bool)
  deriving Repr, DecidableEq

/-- `PixooConnection.send_command`: the guard under the lock, the retry
loop, and the teardown-on-connection-error epilogue.  Returns the
outcome and the connection state afterwards (the teardown closes the
session and clears `_connected` but leaves `_ip` in place). -/
def send_command (st : ConnState) (attempts : List Attempt) :
    SendOutcome × ConnState :=
  if st.connected && truthyIp st.ip && st.session.isSome then
    match loopRun attempts false with
    | .returned code _ => (.ok code, st)
    | .protoRaise s _ => (.errProtocol s, st)
    | .exhausted isConn _ =>
      if isConn then
        (.errExhausted true, { st with connected := false, session := none })
      else
        (.errExhausted false, st)
  else (.errNotConnected, st)

/-! ## FrameUploadProtocol (`app/services/pixoo_upload.py`)

`frame_to_base64` normalises a PIL frame to a 64×64 RGB image, flattens
it row-major into `width*height*3` bytes and base64-encodes them.
`upload_gif` guards connectivity and the frame ceiling, computes the
default speed, resets the device buffer and sends the frames one by
one.  PIL itself is a collaborator: its images are modelled as a mode
tag, dimensions, and a pixel accessor.
-/

/-- One byte (an 8-bit channel value). -/
abbrev Byte := Fin 256

/-- PIL pixel modes reaching `frame_to_base64`: the GIF loader hands
over `RGBA` frames; `RGB` and greyscale cover the other callers. -/
inductive PixMode where
  | rgb
  | rgba
  | gray

/-- A PIL image: mode, size, and a pixel accessor.  Pixels carry four
channels; for `gray` only the first is meaningful. -/
structure PILImage where
  mode : PixMode
  width : Nat
  height : Nat
  px : Nat → Nat → Byte × Byte × Byte × Byte

/-- An image already in `RGB` mode. -/
structure RGBImage where
  width : Nat
  height : Nat
  px : Nat → Nat → Byte × Byte × Byte

/-- `frame.convert("RGB")`: identity on `RGB`, drops alpha on `RGBA`,
replicates the grey channel on `L`. -/
def PILImage.convertRGB (img : PILImage) : RGBImage :=
  { width := img.width, height := img.height,
    px := fun x y =>
      match img.mode, img.px x y with
      | .rgb, (r, g, b, _) => (r, g, b)
      | .rgba, (r, g, b, _) => (r, g, b)
      | .gray, (g, _, _, _) => (g, g, g) }

/-- `frame.resize((w, h), Image.Resampling.NEAREST)`: every target
pixel samples one source pixel.  (PIL's exact NEAREST sample positions
are a library detail; the verified properties depend only on the
output dimensions.) -/
def RGBImage.resizeNearest (img : RGBImage) (w h : Nat) : RGBImage :=
  { width := w, height := h,
    px := fun x y => img.px (x * img.width / w) (y * img.height / h) }

/-- `PIXOO_SIZE` from `app/config.py`. -/
def PIXOO_SIZE : Nat := 64

/-- `MAX_UPLOAD_FRAMES` from `app/config.py`. -/
def MAX_UPLOAD_FRAMES : Nat := 40

/-- The normalisation at the top of `frame_to_base64`: convert to RGB
when the mode differs, resize to 64×64 when the size differs. -/
def frameNormalize (img : PILImage) : RGBImage :=
  let rgb := img.convertRGB
  if rgb.width = PIXOO_SIZE ∧ rgb.height = PIXOO_SIZE then rgb
  else rgb.resizeNearest PIXOO_SIZE PIXOO_SIZE

/-- `frame.getdata()`: the pixels in row-major order. -/
def RGBImage.getdata (img : RGBImage) : List (Byte × Byte × Byte) :=
  (List.range img.height).flatMap fun y =>
    (List.range img.width).map fun x => img.px x y

/-- The `bytearray` built by the `for r, g, b in pixels` loop:
flat `[R, G, B, R, G, B, ...]` data. -/
def flatBytes (pxs : List (Byte × Byte × Byte)) : List Nat :=
  pxs.flatMap fun p => [p.1.val, p.2.1.val, p.2.2.val]

/-- The base64 alphabet. -/
def b64Table : List Char :=
  "ABCDEFGHIJKLMNOPQRSTUVWXYZabcdefghijklmnopqrstuvwxyz0123456789+/".toList

/-- The character for one 6-bit group. -/
def encChar (n : Nat) : Char := b64Table.getD n 'A'

/-- The 6-bit group for one character (`none` outside the alphabet). -/
def decChar (c : Char) : Option Nat :=
  if b64Table.contains c then some (b64Table.indexOf c) else none

/-- Encode one 3-byte group into 4 base64 characters. -/
def encode3 (a b c : Nat) : List Char :=
  let w := a % 256 * 65536 + b % 256 * 256 + c % 256
  [encChar (w / 262144), encChar (w / 4096 % 64), encChar (w / 64 % 64),
   encChar (w % 64)]

/-- `base64.b64encode` over a byte list (with `=` padding). -/
def b64encodeBytes : List Nat → List Char
  | a :: b :: c :: rest => encode3 a b c ++ b64encodeBytes rest
  | [a, b] =>
    let w := a % 256 * 65536 + b % 256 * 256
    [encChar (w / 262144), encChar (w / 4096 % 64), encChar (w / 64 % 64), '=']
  | [a] =>
    let w := a % 256 * 65536
    [encChar (w / 262144), encChar (w / 4096 % 64), '=', '=']
  | [] => []

/-- Decode one 4-character base64 group (possibly padded). -/
def decode4 (c1 c2 c3 c4 : Char) : Option (List Nat) :=
  match decChar c1, decChar c2 with
  | some s1, some s2 =>
    if c3 = '=' then
      if c4 = '=' then some [(s1 * 262144 + s2 * 4096) / 65536 % 256] else none
    else
      match decChar c3 with
      | some s3 =>
        if c4 = '=' then
          let w := s1 * 262144 + s2 * 4096 + s3 * 64
          some [w / 65536 % 256, w / 256 % 256]
        else
          match decChar c4 with
          | some s4 =>
            let w := s1 * 262144 + s2 * 4096 + s3 * 64 + s4
            some [w / 65536 % 256, w / 256 % 256, w % 256]
          | none => none
      | none => none
  | _, _ => none

/-- `base64.b64decode` over characters; `none` on malformed input. -/
def b64decodeChars : List Char → Option (List Nat)
  | [] => some []
  | c1 :: c2 :: c3 :: c4 :: rest =>
    if c3 = '=' ∨ c4 = '=' then
      match rest, decode4 c1 c2 c3 c4 with
      | [], some bs => some bs
      | _, _ => none
    else
      match decode4 c1 c2 c3 c4, b64decodeChars rest with
      | some bs, some more => some (bs ++ more)
      | _, _ => none
  | _ => none

/-- `frame_to_base64`: normalise, flatten row-major, base64-encode.
(The final `.decode("utf-8")` only reinterprets the ASCII bytes as a
string; a character list models both.) -/
def frame_to_base64 (frame : PILImage) : List Char :=
  b64encodeBytes (flatBytes (frameNormalize frame).getdata)

/-- How one `send_command` call inside the upload pipeline ends, as
seen by `upload_gif`: a parsed body carrying its `error_code`, a
`PixooConnectionError`, or any other exception. -/
inductive CallResult where
  | ok (errorCode : Int)
  | connFail
  | otherFail

/-- How `upload_gif` ends: the success dict (`frames_sent`,
`speed_ms`), or one of `PixooConnectionError` (not connected),
`TooManyFramesError`, `UploadError`, and a `PixooConnectionError`
re-raised from a frame send. -/
inductive UploadResult where
  | success (frames_sent : Nat) (speed_ms : Nat)
  | notConnectedErr
  | tooManyFramesErr
  | uploadErr
  | connErr
  deriving Repr, DecidableEq

/-- The per-frame loop of `upload_gif`: one `send_gif_frame` call per
frame; the `device` schedule gives call `k`'s outcome (call 0 was the
buffer reset).  Returns the first failure, if any, and the number of
frame calls made.  A non-zero `error_code` raises `UploadError`; a
`PixooConnectionError` is re-raised as is; any other exception becomes
`UploadError`.  The base64 payload built for each frame does not
influence control flow and is not recomputed here. -/
def sendFrames (device : Nat → CallResult) : Nat → List PILImage →
    Option UploadResult × Nat
  | _, [] => (none, 0)
  | k, _ :: rest =>
    match device k with
    | .ok code =>
      if code ≠ 0 then (some .uploadErr, 1)
      else
        let r := sendFrames device (k + 1) rest
        (r.1, r.2 + 1)
    | .connFail => (some .connErr, 1)
    | .otherFail => (some .uploadErr, 1)

/-- `upload_gif(path, speed)`: connectivity guard, frame-ceiling check,
default-speed computation (`sum(durations) // len(durations)` clamped
below at 50), buffer reset (whose `error_code` the code ignores:
any exception there becomes `UploadError`), then the per-frame sends.
`frames`/`durations` stand for `load_gif_frames(path)`; the second
component counts the network calls issued (reset + frames). -/
def upload_gif (connected : Bool) (frames : List PILImage)
    (durations : List Nat) (speed? : Option Nat)
    (device : Nat → CallResult) : UploadResult × Nat :=
  if connected = false then (.notConnectedErr, 0)
  else if frames.length > MAX_UPLOAD_FRAMES then (.tooManyFramesErr, 0)
  else
    let speed :=
      match speed? with
      | some s => s
      | none => max (durations.sum / durations.length) 50
    match device 0 with
    | .ok _ =>
      match sendFrames device 1 frames with
      | (some err, calls) => (err, calls + 1)
      | (none, calls) => (.success frames.length speed, calls + 1)
    | .connFail => (.uploadErr, 1)
    | .otherFail => (.uploadErr, 1)

/-- A 1×1 black test frame used by the concrete witnesses. -/
def blackFrame : PILImage := ⟨.rgb, 1, 1, fun _ _ => (0, 0, 0, 0)⟩

/-! ## RotationScheduler (`app/services/rotation_manager.py`)

`RotationManager` is a singleton whose mutable fields we gather into a
`RotationState`; the persisted JSON config file is the `saved_config`
field (`none` = file absent).  The gallery collaborator is a membership
predicate (`gallery.get_item(id) is not None`), and `random.shuffle` is
an explicit permutation parameter.  The config's `updated_at` wall-clock
field and the display-only `interval_label` are not modelled; background
task handles live outside the claims.
-/

/-- The persisted `RotationConfig` (ids and interval; the write is
always version 1, so the version tag is left implicit). -/
structure RotationConfig where
  selected_ids : List String
  interval_seconds : Nat
  deriving Repr, DecidableEq

/-- The mutable fields of the `RotationManager` singleton, plus the
persisted config file. -/
structure RotationState where
  is_active : Bool
  is_paused : Bool
  selected_ids : List String
  interval_seconds : Nat
  current_index : Nat
  shuffled_order : List String
  saved_config : Option RotationConfig
  deriving Repr, DecidableEq

/-- `RotationStatus` as returned by `get_status` (without the
display-only `interval_label`). -/
structure RotationStatus where
  is_active : Bool
  is_paused : Bool
  selected_ids : List String
  selected_count : Nat
  interval_seconds : Nat
  current_index : Nat
  has_saved_config : Bool
  deriving Repr, DecidableEq

/-- The keys of `ROTATION_INTERVALS` (seconds). -/
def ROTATION_INTERVALS : List Nat := [60, 120, 300]

/-- `RotationManager._validate_ids`: keep the ids the gallery knows. -/
def validate_ids (gallery : String → Bool) (ids : List String) : List String :=
  ids.filter gallery

/-- `RotationManager._stop_internal`: clear the active/paused flags and
cancel the background tasks (the handles are not modelled). -/
def RotationState.stop_internal (st : RotationState) : RotationState :=
  { st with is_active := false, is_paused := false }

/-- `RotationManager._save_config`: no-op when the selection is empty,
otherwise persist the current ids and interval atomically. -/
def RotationState.save_config (st : RotationState) : RotationState :=
  if st.selected_ids = [] then st
  else { st with saved_config := some ⟨st.selected_ids, st.interval_seconds⟩ }

/-- `RotationManager.start(selected_ids, interval_seconds)`: reject an
empty id list, an interval outside `ROTATION_INTERVALS`, or an id list
with no gallery-valid member (returning `False` with nothing changed);
otherwise stop any active rotation, install the valid ids, shuffle,
reset the index, mark active, persist, and schedule the loop. -/
def RotationManager.start (st : RotationState) (gallery : String → Bool)
    (shuffle : List String → List String)
    (selected_ids : List String) (interval_seconds : Nat) :
    Bool × RotationState :=
  if selected_ids = [] then (false, st)
  else if interval_seconds ∉ ROTATION_INTERVALS then (false, st)
  else
    let valid := validate_ids gallery selected_ids
    if valid = [] then (false, st)
    else
      let st1 := if st.is_active then st.stop_internal else st
      let st2 := { st1 with
        selected_ids := valid,
        interval_seconds := interval_seconds,
        shuffled_order := shuffle valid,
        current_index := 0,
        is_active := true,
        is_paused := false }
      (true, st2.save_config)

/-- `RotationManager.add_item(item_id)`: reject an id the gallery does
not know, then an inactive rotation; an id already selected is a
success with nothing changed; otherwise append to the selection and to
the end of the in-flight order, and persist. -/
def RotationManager.add_item (st : RotationState) (gallery : String → Bool)
    (item_id : String) : Bool × RotationState :=
  if validate_ids gallery [item_id] = [] then (false, st)
  else if st.is_active = false then (false, st)
  else if item_id ∈ st.selected_ids then (true, st)
  else
    let st1 := { st with
      selected_ids := st.selected_ids ++ [item_id],
      shuffled_order := st.shuffled_order ++ [item_id] }
    (true, st1.save_config)

/-- `RotationManager.remove_item(item_id)`: reject an inactive rotation
or an unknown id; otherwise drop the id from the selection and from the
shuffled order (decrementing the index when the removed entry sat
before the current pointer); when the selection empties, stop the
rotation and delete the persisted config, else persist. -/
def RotationManager.remove_item (st : RotationState) (item_id : String) :
    Bool × RotationState :=
  if st.is_active = false then (false, st)
  else if item_id ∈ st.selected_ids then
    let selected := st.selected_ids.erase item_id
    let order :=
      if item_id ∈ st.shuffled_order then st.shuffled_order.erase item_id
      else st.shuffled_order
    let index :=
      if item_id ∈ st.shuffled_order ∧
          st.shuffled_order.indexOf item_id < st.current_index then
        st.current_index - 1
      else st.current_index
    let st1 := { st with
      selected_ids := selected, shuffled_order := order,
      current_index := index }
    if selected = [] then (true, { st1.stop_internal with saved_config := none })
    else (true, st1.save_config)
  else (false, st)

/-- `RotationManager._load_config`: absent file → `None`; a config
whose ids all vanished from the gallery is deleted and reported absent;
ids pruned by the gallery are dropped from the returned object (the
file itself is not rewritten).  Returns the loaded config and the file
state afterwards.  (The version check always passes: the model only
persists version-1 documents.) -/
def RotationManager.load_config (gallery : String → Bool)
    (saved : Option RotationConfig) :
    Option RotationConfig × Option RotationConfig :=
  match saved with
  | none => (none, none)
  | some cfg =>
    let valid := validate_ids gallery cfg.selected_ids
    if valid = [] then (none, none)
    else (some { cfg with selected_ids := valid }, some cfg)

/-- `RotationManager.get_status()`: the saved config is consulted (and
possibly deleted) only when the rotation is inactive; when active it is
reported absent by construction.  Returns the status and the state
afterwards (`_load_config` can delete the file). -/
def RotationManager.get_status (st : RotationState) (gallery : String → Bool) :
    RotationStatus × RotationState :=
  let loaded :=
    if st.is_active then (none, st.saved_config)
    else RotationManager.load_config gallery st.saved_config
  let ids :=
    if st.is_active then st.selected_ids
    else
      match loaded.1 with
      | some cfg => cfg.selected_ids
      | none => []
  ({ is_active := st.is_active,
     is_paused := st.is_paused,
     selected_ids := ids,
     selected_count := ids.length,
     interval_seconds := st.interval_seconds,
     current_index := st.current_index,
     has_saved_config := loaded.1.isSome },
   { st with saved_config := loaded.2 })

/-! ## Theorems -/

theorem mem_eraseTs {m : List (FPath × Int)} {k : FPath} {kv : FPath × Int}
    (h : kv ∈ eraseTs m k) : kv ∈ m ∧ kv.1 ≠ k := by
  have h' := List.mem_filter.mp h
  exact ⟨h'.1, by simpa using h'.2⟩

theorem mem_setTs {m : List (FPath × Int)} {k : FPath} {v : Int} {kv : FPath × Int}
    (h : kv ∈ setTs m k v) : kv = (k, v) ∨ (kv ∈ m ∧ kv.1 ≠ k) := by
  rcases List.mem_cons.mp h with h' | h'
  · exact Or.inl h'
  · exact Or.inr (mem_eraseTs h')

theorem trackerInv_empty : TrackerInv FileTracker.empty := by
  constructor
  · intro q v h; simp [FileTracker.empty] at h
  · intro kv h; simp [FileTracker.empty] at h

theorem trackerInv_acquire {t : FileTracker} (h : TrackerInv t)
    (p : FPath) (now : Int) : TrackerInv (t.acquire p now) := by
  obtain ⟨h1, h2⟩ := h
  constructor
  · intro q v hv
    simp only [FileTracker.acquire] at hv
    by_cases hq : q = p
    · subst hq
      rw [if_pos rfl] at hv
      have hv' : t.refGet q 0 + 1 = v := Option.some_inj.mp hv
      rw [← hv']
      cases hr : t.refs q with
      | none => simp [FileTracker.refGet, hr]
      | some w =>
        have hw := h1 q w hr
        simp only [FileTracker.refGet, hr, Option.getD_some]
        omega
    · rw [if_neg hq] at hv
      exact h1 q v hv
  · intro kv hkv
    simp only [FileTracker.acquire] at hkv ⊢
    rcases mem_setTs hkv with h' | ⟨hmem, hne⟩
    · subst h'
      simp
    · rw [if_neg hne]
      exact h2 kv hmem

theorem trackerInv_release {t : FileTracker} (h : TrackerInv t)
    (p : FPath) : TrackerInv (t.release p).1 := by
  obtain ⟨h1, h2⟩ := h
  unfold FileTracker.release
  cases hr : t.refs p with
  | none => exact ⟨h1, h2⟩
  | some v =>
    dsimp only
    by_cases hn : v - 1 ≤ 0
    · rw [if_pos hn]
      dsimp only
      constructor
      · intro q w hw
        dsimp only at hw
        by_cases hq : q = p
        · rw [if_pos hq] at hw
          exact absurd hw (by simp)
        · rw [if_neg hq] at hw
          exact h1 q w hw
      · intro kv hkv
        obtain ⟨hmem, hne⟩ := mem_eraseTs hkv
        dsimp only
        rw [if_neg hne]
        exact h2 kv hmem
    · rw [if_neg hn]
      dsimp only
      constructor
      · intro q w hw
        dsimp only at hw
        by_cases hq : q = p
        · rw [if_pos hq] at hw
          have := Option.some_inj.mp hw
          omega
        · rw [if_neg hq] at hw
          exact h1 q w hw
      · intro kv hkv
        dsimp only
        by_cases hq : kv.1 = p
        · rw [if_pos hq]
          simp
        · rw [if_neg hq]
          exact h2 kv hkv

theorem trackerInv_applyOps (t : FileTracker) (h : TrackerInv t)
    (ops : List TrackOp) : TrackerInv (applyOps t ops) := by
  induction ops generalizing t with
  | nil => exact h
  | cons op rest ih =>
    cases op with
    | acq p now => exact ih _ (trackerInv_acquire h p now)
    | rel p => exact ih _ (trackerInv_release h p)

/-- Under the reachability invariant, `get_stale_files` can never report
anything: every path still carrying a timestamp has refcount ≥ 1. -/
theorem get_stale_files_eq_nil {t : FileTracker} (h : TrackerInv t)
    (ttl now : Int) : t.get_stale_files ttl now = [] := by
  obtain ⟨h1, h2⟩ := h
  unfold FileTracker.get_stale_files
  have : t.timestamps.filter
      (fun kv => now - kv.2 > ttl ∧ t.refGet kv.1 0 = 0) = [] := by
    rw [List.filter_eq_nil_iff]
    intro kv hkv
    have hs := h2 kv hkv
    cases hr : t.refs kv.1 with
    | none => rw [hr] at hs; simp at hs
    | some v =>
      have hv := h1 kv.1 v hr
      simp [FileTracker.refGet, hr]
      omega
  rw [this]
  rfl

/-- `cleanup_files` never deletes a path that is still in use. -/
theorem cleanup_files_preserves_in_use (t : FileTracker)
    (paths : List (Option FPath)) (fsys : List FPath) (p : FPath)
    (hin : t.is_in_use p = true) (hmem : p ∈ fsys) :
    p ∈ cleanup_files t paths fsys := by
  induction paths generalizing fsys with
  | nil => exact hmem
  | cons hd rest ih =>
    cases hd with
    | none => exact ih fsys hmem
    | some q =>
      by_cases hq : t.is_in_use q
      · simpa [cleanup_files, hq] using ih fsys hmem
      · have hne : p ≠ q := fun he => hq (he ▸ hin)
        have : p ∈ fsys.erase q := (List.mem_erase_of_ne hne).mpr hmem
        simpa [cleanup_files, hq] using ih (fsys.erase q) this

theorem loopRun_exhausted_length {attempts : List Attempt} {flag c : Bool} {u : Nat}
    (h : loopRun attempts flag = .exhausted c u) : u = attempts.length := by
  induction attempts generalizing flag c u with
  | nil =>
    simp only [loopRun] at h
    cases h
    rfl
  | cons a rest ih =>
    cases a with
    | ok s code =>
      simp only [loopRun] at h
      by_cases hs : s = 200 <;> simp [hs] at h
    | timeout =>
      simp only [loopRun] at h
      cases hrec : loopRun rest false with
      | returned c' u' => rw [hrec] at h; simp [LoopResult.bump] at h
      | protoRaise s' u' => rw [hrec] at h; simp [LoopResult.bump] at h
      | exhausted c' u' =>
        rw [hrec] at h
        simp only [LoopResult.bump, LoopResult.exhausted.injEq] at h
        obtain ⟨rfl, rfl⟩ := h
        simp [ih hrec]
    | connRefused =>
      simp only [loopRun] at h
      cases hrec : loopRun rest true with
      | returned c' u' => rw [hrec] at h; simp [LoopResult.bump] at h
      | protoRaise s' u' => rw [hrec] at h; simp [LoopResult.bump] at h
      | exhausted c' u' =>
        rw [hrec] at h
        simp only [LoopResult.bump, LoopResult.exhausted.injEq] at h
        obtain ⟨rfl, rfl⟩ := h
        simp [ih hrec]
    | otherErr =>
      simp only [loopRun] at h
      cases hrec : loopRun rest false with
      | returned c' u' => rw [hrec] at h; simp [LoopResult.bump] at h
      | protoRaise s' u' => rw [hrec] at h; simp [LoopResult.bump] at h
      | exhausted c' u' =>
        rw [hrec] at h
        simp only [LoopResult.bump, LoopResult.exhausted.injEq] at h
        obtain ⟨rfl, rfl⟩ := h
        simp [ih hrec]

theorem loopRun_replicate_timeout (n : Nat) :
    loopRun (List.replicate n .timeout) false = .exhausted false n := by
  induction n with
  | zero => rfl
  | succ m ih =>
    rw [List.replicate_succ]
    simp only [loopRun, ih, LoopResult.bump]

theorem loopRun_replicate_connRefused (n : Nat) (flag : Bool) (h : 0 < n) :
    loopRun (List.replicate n .connRefused) flag = .exhausted true n := by
  induction n generalizing flag with
  | zero => exact absurd h (by simp)
  | succ m ih =>
    rw [List.replicate_succ]
    show (loopRun (List.replicate m .connRefused) true).bump = .exhausted true (m + 1)
    cases m with
    | zero => rfl
    | succ k =>
      rw [ih true (Nat.succ_pos k)]
      rfl

theorem loopRun_failures_then_status (pre : List Attempt) (hpre : ∀ a ∈ pre, a.isFail = true)
    (s : Nat) (code : Int) (rest : List Attempt) (flag : Bool) (hs : s ≠ 200) :
    loopRun (pre ++ .ok s code :: rest) flag = .protoRaise s (pre.length + 1) := by
  induction pre generalizing flag with
  | nil => simp [loopRun, hs]
  | cons a pre' ih =>
    have ha : a.isFail = true := hpre a (by simp)
    have hpre' : ∀ b ∈ pre', b.isFail = true := fun b hb => hpre b (by simp [hb])
    cases a with
    | ok _ _ => simp [Attempt.isFail] at ha
    | timeout =>
      rw [List.cons_append]
      show (loopRun (pre' ++ .ok s code :: rest) false).bump
        = .protoRaise s (pre'.length + 1 + 1)
      rw [ih hpre' false]
      rfl
    | connRefused =>
      rw [List.cons_append]
      show (loopRun (pre' ++ .ok s code :: rest) true).bump
        = .protoRaise s (pre'.length + 1 + 1)
      rw [ih hpre' true]
      rfl
    | otherErr =>
      rw [List.cons_append]
      show (loopRun (pre' ++ .ok s code :: rest) false).bump
        = .protoRaise s (pre'.length + 1 + 1)
      rw [ih hpre' false]
      rfl

/-- C2: whenever a `send_command` round-trip completes but the device's
response is non-success (HTTP status ≠ 200 — the check at
`pixoo_connection.py:335-338`), `send_command` raises
`PixooConnectionError` at once (the `except PixooConnectionError:
raise` arm skips the retries and the teardown epilogue) and the
connection state — connected flag, ip, session — is unchanged.  The
schedule is any run of failing attempts followed by the completed
round-trip. -/
theorem send_command_protocol_error_no_state_change
    (st : ConnState) (pre : List Attempt) (s : Nat) (code : Int)
    (rest : List Attempt)
    (hc : st.connected = true) (hip : truthyIp st.ip = true)
    (hs : st.session.isSome = true)
    (hpre : ∀ a ∈ pre, a.isFail = true) (hstatus : s ≠ 200) :
    send_command st (pre ++ .ok s code :: rest) = (.errProtocol s, st) := by
  unfold send_command
  rw [hc, hip, hs]
  simp only [Bool.and_self, and_true, if_true]
  rw [loopRun_failures_then_status pre hpre s code rest false hstatus]

/-- C2 witness: a connected state, one timed-out attempt, then a
completed round-trip answering HTTP 500. -/
theorem send_command_protocol_error_no_state_change_witness :
    send_command ⟨true, some "10.0.0.5", some 1⟩ [.timeout, .ok 500 0]
      = (.errProtocol 500, ⟨true, some "10.0.0.5", some 1⟩) := by
  have h := send_command_protocol_error_no_state_change
    ⟨true, some "10.0.0.5", some 1⟩ [.timeout] 500 0 []
    rfl rfl rfl (by intro a ha; simp at ha; simp [ha, Attempt.isFail])
    (by decide)
  simpa using h

/-- C3: when every transport attempt times out, `send_command` makes
exactly `max_retries` attempts (the schedule's length) and then raises,
and the connection state is untouched — a timeout never flips the
connected flag or closes the session. -/
theorem send_command_timeout_keeps_state
    (st : ConnState) (n : Nat)
    (hc : st.connected = true) (hip : truthyIp st.ip = true)
    (hs : st.session.isSome = true) :
    send_command st (List.replicate n .timeout) = (.errExhausted false, st) ∧
    (loopRun (List.replicate n .timeout) false).used = n := by
  constructor
  · unfold send_command
    rw [hc, hip, hs]
    simp only [Bool.and_self, and_true, if_true]
    rw [loopRun_replicate_timeout n]
    rfl
  · rw [loopRun_replicate_timeout n]
    rfl

/-- C3 witness: three timeouts against a connected state: three
attempts are made, the error is raised, and the state is unchanged
(still connected, session open). -/
theorem send_command_timeout_keeps_state_witness :
    send_command ⟨true, some "10.0.0.5", some 1⟩ (List.replicate 3 .timeout)
        = (.errExhausted false, ⟨true, some "10.0.0.5", some 1⟩) ∧
      (loopRun (List.replicate 3 .timeout) false).used = 3 :=
  send_command_timeout_keeps_state ⟨true, some "10.0.0.5", some 1⟩ 3 rfl rfl rfl

/-- C4: starting from a connected state, `send_command` flips the state
to disconnected **only** when the whole retry budget is exhausted and
the final failure is connection-refused-class; in that case the session
is closed alongside, and when every attempt is connection-refused the
call ends in the connection error with `is_connected()` false
afterwards. -/
theorem send_command_disconnect_only_on_refused
    (st : ConnState) (attempts : List Attempt)
    (hc : st.connected = true) (hip : truthyIp st.ip = true)
    (hs : st.session.isSome = true) :
    ((send_command st attempts).2.connected = false →
      loopRun attempts false = .exhausted true attempts.length ∧
      (send_command st attempts).1 = .errExhausted true ∧
      (send_command st attempts).2.session = none) ∧
    (∀ n, 0 < n →
      send_command st (List.replicate n .connRefused)
          = (.errExhausted true, { st with connected := false, session := none }) ∧
        (send_command st (List.replicate n .connRefused)).2.is_connected = false) := by
  have hguard : (st.connected && truthyIp st.ip && st.session.isSome) = true := by
    rw [hc, hip, hs]
    rfl
  constructor
  · intro hflip
    unfold send_command at hflip ⊢
    rw [hguard, if_pos rfl] at hflip ⊢
    revert hflip
    cases hloop : loopRun attempts false with
    | returned code u =>
      intro hflip
      simp [hc] at hflip
    | protoRaise s u =>
      intro hflip
      simp [hc] at hflip
    | exhausted isConn u =>
      intro hflip
      cases isConn with
      | false => simp [hc] at hflip
      | true =>
        have hu := loopRun_exhausted_length hloop
        exact ⟨by rw [hu], rfl, rfl⟩
  · intro n hn
    have hrun := loopRun_replicate_connRefused n false hn
    have hmain : send_command st (List.replicate n .connRefused)
        = (.errExhausted true, { st with connected := false, session := none }) := by
      unfold send_command
      rw [hguard, if_pos rfl, hrun]
      rfl
    exact ⟨hmain, by rw [hmain]; rfl⟩

/-- C4 witness: three refused attempts against a connected state tear
the connection down: the connection error is raised, the session is
closed, and `is_connected()` is false afterwards. -/
theorem send_command_disconnect_only_on_refused_witness :
    send_command ⟨true, some "10.0.0.5", some 1⟩ (List.replicate 3 .connRefused)
        = (.errExhausted true, ⟨false, some "10.0.0.5", none⟩) ∧
      (send_command ⟨true, some "10.0.0.5", some 1⟩
        (List.replicate 3 .connRefused)).2.is_connected = false := by
  have h := (send_command_disconnect_only_on_refused
    ⟨true, some "10.0.0.5", some 1⟩ (List.replicate 3 .connRefused)
    rfl rfl rfl).2 3 (by decide)
  exact h

/-- C1 counterexample: acquire a path at time 0, release it (the count
returns to zero and `release` answers `True`), and let far more than the
TTL elapse — `get_stale_files` still does **not** report the path,
because `release` deleted its timestamp together with its refcount. The
claim expects the path among the deletion candidates. -/
theorem release_then_stale_counterexample :
    ((FileTracker.empty.acquire "a" 0).release "a").2 = true ∧
    "a" ∉ (((FileTracker.empty.acquire "a" 0).release "a").1.get_stale_files 5 1000) := by
  refine ⟨rfl, ?_⟩
  have h : (((FileTracker.empty.acquire "a" 0).release "a").1.get_stale_files 5 1000)
      = [] := rfl
  rw [h]
  simp

/-- C1 (amended): `cleanup_files` never deletes a path whose reference
count is above zero; but once acquire/release activity brings a path's
count back to zero, `release` answers `True` (the deletion-eligible
signal) and drops the path from tracking entirely, so `get_stale_files`
never reports it — on any tracker reachable through acquire/release
alone, `get_stale_files` returns the empty list for every TTL. -/
theorem cleanup_skips_in_use_and_stale_is_empty
    (t : FileTracker) (paths : List (Option FPath)) (fsys : List FPath)
    (p : FPath) (ops : List TrackOp) (ttl now : Int) :
    (t.is_in_use p = true → p ∈ fsys → p ∈ cleanup_files t paths fsys) ∧
    (applyOps FileTracker.empty ops).get_stale_files ttl now = [] :=
  ⟨fun hin hmem => cleanup_files_preserves_in_use t paths fsys p hin hmem,
   get_stale_files_eq_nil (trackerInv_applyOps _ trackerInv_empty ops) ttl now⟩

/-- C1 witness: an acquired path survives a cleanup pass that targets
it, and a full acquire/release history leaves nothing stale. -/
theorem cleanup_skips_in_use_and_stale_is_empty_witness :
    "a" ∈ cleanup_files (FileTracker.empty.acquire "a" 0) [some "a"] ["a"] ∧
    (applyOps FileTracker.empty [.acq "b" 0, .rel "b"]).get_stale_files 5 1000 = [] := by
  have h := cleanup_skips_in_use_and_stale_is_empty
    (FileTracker.empty.acquire "a" 0) [some "a"] ["a"] "a"
    [.acq "b" 0, .rel "b"] 5 1000
  exact ⟨h.1 rfl (by simp), h.2⟩

/-- C5: with the device connected, a source whose frame count exceeds
`MAX_UPLOAD_FRAMES` makes `upload_gif` raise `TooManyFramesError`
before any network call — no buffer reset and no frame send. -/
theorem upload_gif_too_many_frames
    (frames : List PILImage) (durations : List Nat) (speed? : Option Nat)
    (device : Nat → CallResult)
    (h : frames.length > MAX_UPLOAD_FRAMES) :
    upload_gif true frames durations speed? device = (.tooManyFramesErr, 0) := by
  unfold upload_gif
  rw [if_neg (by simp), if_pos h]

/-- C5 witness: 41 frames exceed the 40-frame ceiling; zero calls are
issued even against a device that would answer success. -/
theorem upload_gif_too_many_frames_witness :
    upload_gif true (List.replicate 41 blackFrame) [100] none (fun _ => .ok 0)
      = (.tooManyFramesErr, 0) :=
  upload_gif_too_many_frames (List.replicate 41 blackFrame) [100] none
    (fun _ => .ok 0) (by simp [MAX_UPLOAD_FRAMES])

theorem sendFrames_all_ok (device : Nat → CallResult) (frames : List PILImage)
    (k : Nat) (h : ∀ j, k ≤ j → j < k + frames.length → device j = .ok 0) :
    sendFrames device k frames = (none, frames.length) := by
  induction frames generalizing k with
  | nil => rfl
  | cons f rest ih =>
    have hk : device k = .ok 0 := h k (le_refl k) (by simp)
    have hrest : ∀ j, k + 1 ≤ j → j < k + 1 + rest.length → device j = .ok 0 := by
      intro j h1 h2
      exact h j (by omega) (by simp [List.length_cons]; omega)
    unfold sendFrames
    simp [hk, ih (k + 1) hrest]

/-- C6: on a connected device answering success for the reset and for
every frame, `upload_gif` with `speed=None` computes the speed as the
floor average of the source's per-frame durations clamped below at
50 ms, and returns the success dict with `frames_sent` equal to the
frame count and `speed_ms = max(50, avg_duration)` (one reset call plus
one call per frame).  The nonemptiness hypotheses mirror
`load_gif_frames`, which always yields at least one frame and one
duration (`sum(durations) // len(durations)` would otherwise divide by
zero). -/
theorem upload_gif_default_speed
    (frames : List PILImage) (durations : List Nat) (device : Nat → CallResult)
    (_hne : frames ≠ []) (hlen : frames.length ≤ MAX_UPLOAD_FRAMES)
    (hdur : durations.length = frames.length)
    (hdev : ∀ k, k ≤ frames.length → device k = .ok 0) :
    upload_gif true frames durations none device
      = (.success frames.length (max 50 (durations.sum / durations.length)),
         frames.length + 1) := by
  unfold upload_gif
  rw [if_neg (by simp), if_neg (by omega)]
  have h0 : device 0 = .ok 0 := hdev 0 (Nat.zero_le _)
  rw [h0]
  have hsend : sendFrames device 1 frames = (none, frames.length) := by
    apply sendFrames_all_ok
    intro j h1 h2
    exact hdev j (by omega)
  rw [hsend]
  rw [Nat.max_comm]

/-- C6 witness: five frames with durations averaging 160 ms and a
device answering success throughout: the result is the success dict
with 5 frames sent at 160 ms, after 6 calls (reset + 5 frames). -/
theorem upload_gif_default_speed_witness :
    upload_gif true (List.replicate 5 blackFrame) [100, 200, 300, 80, 120] none
        (fun _ => .ok 0)
      = (.success 5 160, 6) := by
  have h := upload_gif_default_speed (List.replicate 5 blackFrame)
    [100, 200, 300, 80, 120] (fun _ => .ok 0)
    (by simp) (by simp [MAX_UPLOAD_FRAMES]) (by simp)
    (fun k _ => rfl)
  simpa using h

/-- C8 counterexample: `start` with the disallowed interval 45 s is
rejected, yet it returns normally with `False` and an untouched state —
no exception is raised on any rejection path of `start` (each of the
three guards is a plain `return False`), so no `ValidationError` of the
error taxonomy is involved. -/
theorem rotation_start_rejects_without_raising_counterexample :
    RotationManager.start ⟨false, false, [], 120, 0, [], none⟩ (fun _ => true)
      id ["a1"] 45 = (false, ⟨false, false, [], 120, 0, [], none⟩) := by
  rfl

/-- C8 (amended): `RotationManager.start` rejects a call whose interval
is outside the fixed enumerated set, whose id list is empty, or whose
ids are all unknown to the gallery, by returning `False` — not by
raising — and on rejection the state is untouched: no rotation is
started and no config is persisted. -/
theorem rotation_start_rejects_by_returning_false
    (st : RotationState) (gallery : String → Bool)
    (shuffle : List String → List String) (ids : List String) (interval : Nat)
    (h : ids = [] ∨ interval ∉ ROTATION_INTERVALS ∨ validate_ids gallery ids = []) :
    RotationManager.start st gallery shuffle ids interval = (false, st) := by
  by_cases hids : ids = []
  · simp [RotationManager.start, hids]
  · by_cases hint : interval ∈ ROTATION_INTERVALS
    · have hval : validate_ids gallery ids = [] := by
        rcases h with h | h | h
        · exact absurd h hids
        · exact absurd hint h
        · exact h
      simp [RotationManager.start, hids, hint, hval]
    · simp [RotationManager.start, hids, hint]

/-- C8 witness: an empty id list is rejected with `False` and the state
is unchanged. -/
theorem rotation_start_rejects_by_returning_false_witness :
    RotationManager.start ⟨false, false, [], 120, 0, [], none⟩ (fun _ => true)
      id [] 60 = (false, ⟨false, false, [], 120, 0, [], none⟩) :=
  rotation_start_rejects_by_returning_false
    ⟨false, false, [], 120, 0, [], none⟩ (fun _ => true) id [] 60 (Or.inl rfl)

/-- C9: `remove_item` on the sole remaining id stops the rotation and
deletes the persisted config, so the status afterwards has
`is_active = false` and `has_saved_config = false`; and on a rotation
with more items, removing an entry positioned strictly before the
current traversal pointer decrements the index by one. -/
theorem remove_item_last_stops_and_index_decrements
    (st : RotationState) (gallery : String → Bool) (item_id : String)
    (hact : st.is_active = true) (hmem : item_id ∈ st.selected_ids) :
    (st.selected_ids = [item_id] →
      (RotationManager.remove_item st item_id).1 = true ∧
      (RotationManager.get_status
        (RotationManager.remove_item st item_id).2 gallery).1.is_active = false ∧
      (RotationManager.get_status
        (RotationManager.remove_item st item_id).2 gallery).1.has_saved_config
        = false) ∧
    (st.selected_ids.erase item_id ≠ [] →
      item_id ∈ st.shuffled_order →
      st.shuffled_order.indexOf item_id < st.current_index →
      (RotationManager.remove_item st item_id).2.current_index
        = st.current_index - 1) := by
  constructor
  · intro hsel
    have herase : st.selected_ids.erase item_id = [] := by
      rw [hsel, List.erase_cons_head]
    simp [RotationManager.remove_item, hact, hmem, herase,
      RotationManager.get_status, RotationManager.load_config,
      RotationState.stop_internal]
  · intro herase hord hidx
    simp [RotationManager.remove_item, hact, hmem, hord, hidx, herase,
      RotationState.save_config]

/-- C9 witness: an active two-item rotation pointing past the first
entry; removing the first entry moves the pointer from 1 back to 0, and
the call reports success. -/
theorem remove_item_last_stops_and_index_decrements_witness :
    (RotationManager.remove_item
      ⟨true, false, ["a", "b"], 60, 1, ["a", "b"], some ⟨["a", "b"], 60⟩⟩
      "a").2.current_index = 0 := by
  have h := remove_item_last_stops_and_index_decrements
    ⟨true, false, ["a", "b"], 60, 1, ["a", "b"], some ⟨["a", "b"], 60⟩⟩
    (fun _ => true) "a" rfl (by simp)
  exact h.2 (by simp) (by simp) (by decide)

/-- C10 counterexample: an active rotation whose selection holds `"a"`
while the gallery no longer knows `"a"`: `add_item "a"` answers
`False`, not success — the gallery check precedes the
already-selected check.  (The state is still untouched.) -/
theorem add_item_unknown_id_counterexample :
    RotationManager.add_item
      ⟨true, false, ["a"], 60, 0, ["a"], some ⟨["a"], 60⟩⟩
      (fun _ => false) "a"
      = (false, ⟨true, false, ["a"], 60, 0, ["a"], some ⟨["a"], 60⟩⟩) := by
  rfl

/-- C10 (amended): on an active rotation whose selection already
contains `item_id`, `add_item` leaves the whole state — selection,
shuffled order, index, persisted config — unchanged, and returns
success exactly when the gallery still knows the id (`False`
otherwise, the gallery check coming first). -/
theorem add_item_idempotent_on_selected
    (st : RotationState) (gallery : String → Bool) (item_id : String)
    (hact : st.is_active = true) (hmem : item_id ∈ st.selected_ids) :
    RotationManager.add_item st gallery item_id = (gallery item_id, st) := by
  unfold RotationManager.add_item
  cases hg : gallery item_id with
  | false => simp [validate_ids, hg]
  | true => simp [validate_ids, hg, hact, hmem]

/-- C10 witness: adding an already-selected id on an active rotation
with the id still in the gallery: success, state unchanged. -/
theorem add_item_idempotent_on_selected_witness :
    RotationManager.add_item
      ⟨true, false, ["a"], 60, 0, ["a"], some ⟨["a"], 60⟩⟩
      (fun _ => true) "a"
      = (true, ⟨true, false, ["a"], 60, 0, ["a"], some ⟨["a"], 60⟩⟩) :=
  add_item_idempotent_on_selected
    ⟨true, false, ["a"], 60, 0, ["a"], some ⟨["a"], 60⟩⟩
    (fun _ => true) "a" rfl (by simp)

theorem decChar_encChar_fin : ∀ n : Fin 64, decChar (encChar n.val) = some n.val := by
  decide

theorem decChar_encChar (n : Nat) (h : n < 64) : decChar (encChar n) = some n :=
  decChar_encChar_fin ⟨n, h⟩

theorem encChar_ne_pad_fin : ∀ n : Fin 64, encChar n.val ≠ '=' := by
  decide

theorem encChar_ne_pad (n : Nat) (h : n < 64) : encChar n ≠ '=' :=
  encChar_ne_pad_fin ⟨n, h⟩

theorem decode4_encChars (s1 s2 s3 s4 : Nat)
    (h1 : s1 < 64) (h2 : s2 < 64) (h3 : s3 < 64) (h4 : s4 < 64) :
    decode4 (encChar s1) (encChar s2) (encChar s3) (encChar s4)
      = some [(s1 * 262144 + s2 * 4096 + s3 * 64 + s4) / 65536 % 256,
              (s1 * 262144 + s2 * 4096 + s3 * 64 + s4) / 256 % 256,
              (s1 * 262144 + s2 * 4096 + s3 * 64 + s4) % 256] := by
  have e3 : (encChar s3 = '=') = False := eq_false (encChar_ne_pad s3 h3)
  have e4 : (encChar s4 = '=') = False := eq_false (encChar_ne_pad s4 h4)
  simp only [decode4, decChar_encChar s1 h1, decChar_encChar s2 h2,
    decChar_encChar s3 h3, decChar_encChar s4 h4, e3, e4, if_false]

theorem b64decodeChars_encode3 (a b c : Nat) (ha : a < 256) (hb : b < 256)
    (hc : c < 256) (tl : List Char) (bs : List Nat)
    (htl : b64decodeChars tl = some bs) :
    b64decodeChars (encode3 a b c ++ tl) = some (a :: b :: c :: bs) := by
  have hma : a % 256 = a := Nat.mod_eq_of_lt ha
  have hmb : b % 256 = b := Nat.mod_eq_of_lt hb
  have hmc : c % 256 = c := Nat.mod_eq_of_lt hc
  have henc : encode3 a b c =
      [encChar ((a * 65536 + b * 256 + c) / 262144),
       encChar ((a * 65536 + b * 256 + c) / 4096 % 64),
       encChar ((a * 65536 + b * 256 + c) / 64 % 64),
       encChar ((a * 65536 + b * 256 + c) % 64)] := by
    simp only [encode3, hma, hmb, hmc]
  rw [henc]
  set W := a * 65536 + b * 256 + c with hWdef
  have h1 : W / 262144 < 64 := by omega
  have h2 : W / 4096 % 64 < 64 := Nat.mod_lt _ (by norm_num)
  have h3 : W / 64 % 64 < 64 := Nat.mod_lt _ (by norm_num)
  have h4 : W % 64 < 64 := Nat.mod_lt _ (by norm_num)
  have e3 : (encChar (W / 64 % 64) = '=') = False := eq_false (encChar_ne_pad _ h3)
  have e4 : (encChar (W % 64) = '=') = False := eq_false (encChar_ne_pad _ h4)
  have hrec : W / 262144 * 262144 + W / 4096 % 64 * 4096 + W / 64 % 64 * 64 + W % 64
      = W := by omega
  have ha' : W / 65536 % 256 = a := by omega
  have hb' : W / 256 % 256 = b := by omega
  have hc' : W % 256 = c := by omega
  simp only [List.cons_append, List.nil_append, b64decodeChars, e3, e4, or_self,
    if_false, decode4_encChars _ _ _ _ h1 h2 h3 h4, hrec, ha', hb', hc']
  simp [htl]

theorem b64_roundtrip : ∀ l : List Nat, (∀ x ∈ l, x < 256) → l.length % 3 = 0 →
    b64decodeChars (b64encodeBytes l) = some l
  | [], _, _ => rfl
  | [_], _, h3 => by simp at h3
  | [_, _], _, h3 => by simp at h3
  | a :: b :: c :: rest, hl, h3 => by
    have ha : a < 256 := hl a (by simp)
    have hb : b < 256 := hl b (by simp)
    have hc : c < 256 := hl c (by simp)
    have hrest : ∀ x ∈ rest, x < 256 := fun x hx => hl x (by simp [hx])
    have h3' : rest.length % 3 = 0 := by
      simp only [List.length_cons] at h3
      omega
    have ih := b64_roundtrip rest hrest h3'
    show b64decodeChars (encode3 a b c ++ b64encodeBytes rest)
      = some (a :: b :: c :: rest)
    exact b64decodeChars_encode3 a b c ha hb hc _ _ ih

theorem flatMap_const_length {α β : Type} (l : List α) (f : α → List β) (w : Nat)
    (h : ∀ x ∈ l, (f x).length = w) : (l.flatMap f).length = l.length * w := by
  induction l with
  | nil => simp
  | cons hd tl ih =>
    simp only [List.flatMap_cons, List.length_append, List.length_cons]
    rw [h hd (by simp), ih (fun x hx => h x (by simp [hx]))]
    ring

theorem getdata_length (img : RGBImage) :
    img.getdata.length = img.height * img.width := by
  unfold RGBImage.getdata
  rw [flatMap_const_length _ _ img.width (fun y _ => by simp)]
  simp

theorem flatBytes_length (pxs : List (Byte × Byte × Byte)) :
    (flatBytes pxs).length = pxs.length * 3 := by
  unfold flatBytes
  exact flatMap_const_length _ _ 3 (fun x _ => rfl)

theorem flatBytes_lt (pxs : List (Byte × Byte × Byte)) :
    ∀ x ∈ flatBytes pxs, x < 256 := by
  intro x hx
  unfold flatBytes at hx
  rw [List.mem_flatMap] at hx
  obtain ⟨p, _, hp⟩ := hx
  simp only [List.mem_cons, List.not_mem_nil, or_false] at hp
  rcases hp with h | h | h <;> subst h
  · exact p.1.isLt
  · exact p.2.1.isLt
  · exact p.2.2.isLt

theorem frameNormalize_size (img : PILImage) :
    (frameNormalize img).width = PIXOO_SIZE ∧
    (frameNormalize img).height = PIXOO_SIZE := by
  by_cases h : img.convertRGB.width = PIXOO_SIZE ∧ img.convertRGB.height = PIXOO_SIZE
  · simp [frameNormalize, h]
  · simp [frameNormalize, h, RGBImage.resizeNearest]

theorem payload_length (frame : PILImage) :
    (flatBytes (frameNormalize frame).getdata).length
      = PIXOO_SIZE * PIXOO_SIZE * 3 := by
  rw [flatBytes_length, getdata_length,
    (frameNormalize_size frame).1, (frameNormalize_size frame).2]

/-- C7: for every input image, of any size and any pixel mode, the
payload produced by `frame_to_base64` base64-decodes back to exactly
the flat row-major RGB data of the normalised (RGB, 64×64) frame, and
that data is exactly `PIXOO_SIZE * PIXOO_SIZE * 3` bytes — the row-major
order being the `getdata` enumeration itself. -/
theorem frame_to_base64_payload (frame : PILImage) :
    b64decodeChars (frame_to_base64 frame)
        = some (flatBytes (frameNormalize frame).getdata) ∧
    (flatBytes (frameNormalize frame).getdata).length
        = PIXOO_SIZE * PIXOO_SIZE * 3 := by
  refine ⟨?_, payload_length frame⟩
  apply b64_roundtrip
  · exact flatBytes_lt _
  · rw [flatBytes_length]
    omega

end PixooManager
